import Mathlib

/-!
Shallow embedding of the `ecommerce-paytabs` plugin (files `paytabs/processors.py`
and `paytabs/views.py`) and proofs about its payment-initiation and
payment-notification flows.

Python dictionaries of string data are modelled as association lists
(`Dict`); `d['k']` access that can raise `KeyError` is modelled through
`dget` returning `Option`, and `d.get('k', default)` through `dgetD`.
Exceptions are modelled by the `PyError` type together with `Except`
results; outbound HTTP calls are modelled by returning the list of calls
the code would have made, and the gateway's JSON replies are inputs
(fields of the environment).
-/

set_option autoImplicit false

namespace PayTabs

/-- A Python dict with string keys and string values, as an association list. -/
abbrev Dict := List (String × String)

/-- `d[k]` lookup: `none` models a `KeyError` on bracket access, and is the
`None` result of `d.get(k)`. -/
def dget (d : Dict) (k : String) : Option String :=
  (d.find? (fun p => p.1 == k)).map (fun p => p.2)

/-- `d.get(k, default)`. -/
def dgetD (d : Dict) (k default_val : String) : String :=
  (dget d k).getD default_val

/-- The Python exceptions the embedded code can raise. -/
inductive PyError where
  /-- `PayTabsException(msg)` from `paytabs/processors.py` (a `GatewayError`). -/
  | payTabsException (msg : String)
  /-- `KeyError` from a bracket access or `str.format(**d)` on a missing key. -/
  | keyError (k : String)
  /-- `AttributeError`: `pycountry.countries.get(alpha_2=...)` returned `None`
  and `.alpha_3` was taken on it. -/
  | attributeError
  /-- Any exception raised by host-side order-placement steps after
  `handle_processor_response` succeeded. -/
  | hostError
deriving DecidableEq, Repr

/-- `HandledProcessorResponse` (host platform named tuple); fields obtained
with `.get` are `Option`-valued. -/
structure HandledProcessorResponse where
  transaction_id : Option String
  total : Option String
  currency : Option String
  card_number : String
  card_type : Option String
deriving DecidableEq, Repr

/-- `PayTabs.handle_processor_response` (`paytabs/processors.py`): reject any
`response_code` other than `'100'`, then build the handled response; the
masked card number is `card_first_six_digits + 'XXXXXX' + card_last_four_digits`
with defaults `'XXXXXX'` and `'XXXX'`. -/
def handle_processor_response (response : Dict) : Except PyError HandledProcessorResponse :=
  match dget response "response_code" with
  | none => .error (.keyError "response_code")
  | some code =>
    if code ≠ "100" then
      .error (.payTabsException "PayTabs raised an error when trying to process the payment")
    else
      .ok {
        transaction_id := dget response "transaction_id"
        total := dget response "amount"
        currency := dget response "currency"
        card_number :=
          dgetD response "card_first_six_digits" "XXXXXX" ++ "XXXXXX"
            ++ dgetD response "card_last_four_digits" "XXXX"
        card_type := dget response "card_brand"
      }

/-- One entry of the `extended_profile` list inside the user's account
details; `field_value` is `Option`-valued because the Python code reads it
with `field.get('field_value', default_val)`. -/
structure ExtField where
  field_name : String
  field_value : Option String
deriving DecidableEq, Repr

/-- The result of `user.account_details(request)`, restricted to the keys the
processor reads. -/
structure AccountDetails where
  country : Option String
  extended_profile : List ExtField
deriving DecidableEq, Repr

/-- A user: `basket.owner`.  `account_details` stands for the result of
`user.account_details(request)`. -/
structure User where
  email : String
  account_details : AccountDetails
deriving DecidableEq, Repr

/-- The helper `get_extended_field(account_details, field_name, default_val)`
inside `_get_user_profile_data`: the `field_value` of the first extended
profile entry whose `field_name` matches, or the default. -/
def get_extended_field (account_details : AccountDetails) (field_name : String)
    (default_val : Option String) : Option String :=
  match account_details.extended_profile.find? (fun f => f.field_name == field_name) with
  | some f =>
    match f.field_value with
    | some v => some v
    | none => default_val
  | none => default_val

/-- The profile dict returned by `_get_user_profile_data`. -/
structure UserProfileData where
  first_name : Option String
  last_name : Option String
  mailing_address : Option String
  city : Option String
  country_code : String
  postal_code : Option String
  state : Option String
deriving DecidableEq, Repr

/-- `PayTabs._get_user_profile_data`.  The pycountry two-letter to
three-letter conversion table is passed in as `alpha3`; a `none` result
models `pycountry.countries.get(alpha_2=...)` returning `None`, on which
`.alpha_3` raises `AttributeError`.  A missing or empty (falsy) country
raises `PayTabsException` before anything else happens. -/
def _get_user_profile_data (alpha3 : String → Option String) (user : User) :
    Except PyError UserProfileData :=
  let account_details := user.account_details
  match account_details.country with
  | none => .error (.payTabsException "Country must be set in user account settings")
  | some c =>
    if c = "" then
      .error (.payTabsException "Country must be set in user account settings")
    else
      match alpha3 c with
      | none => .error .attributeError
      | some country_code =>
        .ok {
          first_name := get_extended_field account_details "first_name" none
          last_name := get_extended_field account_details "last_name" none
          mailing_address := get_extended_field account_details "mailing_address" none
          city := get_extended_field account_details "city" none
          country_code := country_code
          postal_code := get_extended_field account_details "ZIP/Postal Code" (some "11564")
          state := get_extended_field account_details "state" none
        }

/-- A basket line: product title, the product's course (if any, carrying its
id), quantity and the tax-inclusive discounted line price. -/
structure Line where
  course_id : Option String
  product_title : String
  quantity : Nat
  line_price_incl_tax_incl_discounts : Rat
deriving DecidableEq, Repr

/-- A basket: id (database key), unique order number, owner, lines, total and
currency. -/
structure Basket where
  id : Int
  order_number : String
  owner : User
  lines : List Line
  total_incl_tax : Rat
  currency : String
deriving DecidableEq, Repr

/-- `PayTabs._get_course_id_title`: the line title prefixed with
`<course id>|` when the product has a course. -/
def _get_course_id_title (line : Line) : String :=
  match line.course_id with
  | some cid => cid ++ "|" ++ line.product_title
  | none => line.product_title

/-- The flat field set POSTed to the gateway's create-pay-page endpoint
(`pay_data` in `get_transaction_parameters`). -/
structure PayData where
  merchant_email : String
  secret_key : String
  site_url : String
  return_url : String
  title : String
  cc_first_name : Option String
  cc_last_name : Option String
  cc_phone_number : String
  phone_number : String
  email : String
  products_per_title : String
  unit_price : String
  quantity : String
  other_charges : String
  amount : String
  discount : String
  currency : String
  reference_no : String
  ip_customer : String
  ip_merchant : String
  billing_address : Option String
  city : Option String
  state : Option String
  postal_code : Option String
  country : String
  shipping_first_name : Option String
  shipping_last_name : Option String
  address_shipping : Option String
  state_shipping : Option String
  city_shipping : Option String
  postal_code_shipping : Option String
  country_shipping : String
  msg_lang : String
  cms_with_version : String
deriving DecidableEq, Repr

/-- The dict returned by `get_transaction_parameters` on success. -/
structure TxParams where
  payment_page_url : Option String
deriving DecidableEq, Repr

/-- Environment of a payment-initiation request: site/request data,
processor configuration, the pycountry table, and the gateway's JSON reply
to the create-pay-page call. -/
structure InitEnv where
  scheme : String
  host : String
  merchant_email : String
  secret_key : String
  return_base_url : String
  default_phone_number_country_code : String
  client_ip : String
  is_routable : Bool
  langCookie : Option String
  languageCode : String
  alpha3 : String → Option String
  createPayPageResponse : Dict

/-- `PayTabs.get_transaction_parameters` (`paytabs/processors.py`).  The
second component of the result is the list of outbound HTTP calls made
(the data POSTed to the create-pay-page endpoint); an error result before
the call leaves it empty.  `reverse('paytabs:paytabs-submit')` resolves to
`/paytabs/submit` per `paytabs/urls.py`.  The error message on a
non-`'4012'` response code is built by `str.format(**response)`, which
raises `KeyError` when the response lacks `response_code` or `result`. -/
def get_transaction_parameters (env : InitEnv) (basket : Basket) :
    Except PyError TxParams × List PayData :=
  let site_url := env.scheme ++ "://" ++ env.host
  let return_url := env.return_base_url ++ "/paytabs/submit"
  let ip_merchant := "-"
  let ip_customer := if env.is_routable then env.client_ip else "-"
  let title := "Order: " ++ basket.order_number
  let user := basket.owner
  match _get_user_profile_data env.alpha3 user with
  | .error e => (.error e, [])
  | .ok user_profile_data =>
    let names := basket.lines.map _get_course_id_title
    let quantities := basket.lines.map (fun line => toString line.quantity)
    let prices := basket.lines.map
      (fun line => toString (line.line_price_incl_tax_incl_discounts / (line.quantity : Rat)))
    let other_charges := "0.0"
    let amount := toString basket.total_incl_tax
    let discount := "0.0"
    let currency := basket.currency
    let reference_no := basket.order_number
    let msg_lang :=
      match env.langCookie with
      | some s => if s = "" then env.languageCode else s
      | none => env.languageCode
    let cms_with_version := "Open edX E-Commerce"
    let pay_data : PayData := {
      merchant_email := env.merchant_email
      secret_key := env.secret_key
      site_url := site_url
      return_url := return_url
      title := title
      cc_first_name := user_profile_data.first_name
      cc_last_name := user_profile_data.last_name
      cc_phone_number := env.default_phone_number_country_code
      phone_number := "Phone Number"
      email := user.email
      products_per_title := String.intercalate " || " names
      unit_price := String.intercalate " || " prices
      quantity := String.intercalate " || " quantities
      other_charges := other_charges
      amount := amount
      discount := discount
      currency := currency
      reference_no := reference_no
      ip_customer := ip_customer
      ip_merchant := ip_merchant
      billing_address := user_profile_data.mailing_address
      city := user_profile_data.city
      state := user_profile_data.state
      postal_code := user_profile_data.postal_code
      country := user_profile_data.country_code
      shipping_first_name := user_profile_data.first_name
      shipping_last_name := user_profile_data.last_name
      address_shipping := user_profile_data.mailing_address
      state_shipping := user_profile_data.state
      city_shipping := user_profile_data.city
      postal_code_shipping := user_profile_data.postal_code
      country_shipping := user_profile_data.country_code
      msg_lang := msg_lang
      cms_with_version := cms_with_version
    }
    let response := env.createPayPageResponse
    if dget response "response_code" ≠ some "4012" then
      match dget response "response_code", dget response "result" with
      | some c, some r =>
        (.error (.payTabsException
          ("PayTabs raised an error when trying to process the payment (code: "
            ++ c ++ ", message: " ++ r ++ ")")), [pay_data])
      | none, _ => (.error (.keyError "response_code"), [pay_data])
      | some _, none => (.error (.keyError "result"), [pay_data])
    else
      (.ok { payment_page_url := dget response "payment_url" }, [pay_data])

/-- Strip leading and trailing whitespace from a character list (the
whitespace stripping `int(s)` performs on its argument). -/
def trimChars (cs : List Char) : List Char :=
  ((cs.dropWhile Char.isWhitespace).reverse.dropWhile Char.isWhitespace).reverse

/-- A non-empty all-digit character list read as a decimal number; `none`
otherwise. -/
def digitsToNat? (cs : List Char) : Option Nat :=
  if cs.isEmpty then none
  else if cs.all Char.isDigit then
    some (cs.foldl (fun n c => n * 10 + (c.toNat - '0'.toNat)) 0)
  else none

/-- Python `int(s)` on a string: optional surrounding whitespace, optional
sign, then decimal digits; `none` models `ValueError`. -/
def pyInt? (s : String) : Option Int :=
  match trimChars s.toList with
  | '-' :: rest => (digitsToNat? rest).map (fun n => -(n : Int))
  | '+' :: rest => (digitsToNat? rest).map (fun n => (n : Int))
  | t => (digitsToNat? t).map (fun n => (n : Int))

/-- The single list of accepted verification response codes
(`PAYTABS_SUCCESS_CODES` in `paytabs/views.py`). -/
def PAYTABS_SUCCESS_CODES : List String := ["100", "111"]

/-- Environment of one notification POST: the request body, the gateway's
JSON reply to the verify-payment call, the host's order-number-to-basket-id
convention and basket table, whether host-side placement steps raise, and
the host's receipt-URL computation. -/
structure Env where
  /-- `request.POST`. -/
  postBody : Dict
  /-- The JSON body returned by the verify-payment gateway call
  (`_verify_response`). -/
  verifyResponse : Dict
  /-- Modelled from the spec: `OrderNumberGenerator().basket_id` (host code,
  not part of this repository) derives a basket id from the verified
  reference number via the host's order-number-to-basket-id convention;
  treated as an opaque function that may yield no id. -/
  basketIdOf : String → Option String
  /-- `Basket.objects.get(id=...)`: `none` models `ObjectDoesNotExist`. -/
  baskets : Int → Option Basket
  /-- Whether the host-side order-placement steps that run after
  `handle_processor_response` succeeded raise an exception. -/
  hostPlacementRaises : Bool
  /-- Modelled from the spec: `get_receipt_page_url` (host code, not part of
  this repository) computes the receipt page URL for the basket's order
  number. -/
  receiptUrl : String → String

/-- `PayTabsResponseView._get_basket` (`paytabs/views.py`): `None` for a
falsy id, a `ValueError` from `int(...)`, or a missing basket row. -/
def _get_basket (env : Env) (basket_id : Option String) : Option Basket :=
  match basket_id with
  | none => none
  | some s =>
    if s = "" then none
    else
      match pyInt? s with
      | none => none
      | some n => env.baskets n

/-- Modelled from the spec: the host order-placement logic
(`EdxOrderPlacementMixin.handle_payment`, not part of this repository)
invokes the processor's `handle_processor_response` on the verified
notification data for the resolved basket, then runs further host-side
placement steps, any of which may raise. -/
def handle_payment (hostPlacementRaises : Bool) (response : Dict) (basket : Basket) :
    Except PyError Unit :=
  match handle_processor_response response with
  | .error e => .error e
  | .ok _ =>
    let _ := basket
    if hostPlacementRaises then .error .hostError else .ok ()

/-- One audit entry written by `record_processor_response`: the raw
notification payload, the transaction id (or the sentinel `'Unknown'`), and
the associated basket (possibly null). -/
structure AuditRecord where
  payload : Dict
  transaction_id : String
  basket : Option Basket
deriving DecidableEq, Repr

/-- The HTTP outcome of the notification handler: a redirect to the generic
error page, a redirect to the receipt page, or an uncaught exception
propagating out of `post`. -/
inductive Outcome where
  | redirectError
  | redirectReceipt (url : String)
  | uncaught (e : PyError)
deriving DecidableEq, Repr

/-- Observable result of one notification POST: the HTTP outcome, how many
verify-payment gateway calls were made, the audit records written by
`record_processor_response`, how many times `create_order` was invoked, and
whether the atomic transaction around `handle_payment` committed. -/
structure PostResult where
  outcome : Outcome
  verifyCalls : Nat
  auditRecords : List AuditRecord
  ordersCreated : Nat
  paymentCommitted : Bool
deriving DecidableEq, Repr

/-- `PayTabsResponseView.post` (`paytabs/views.py`).  The `try`/`finally`
around steps 1-3 means `record_processor_response` runs on every path after
the `payment_reference` read, including early `return`s and uncaught
exceptions; `transaction_id` stays `'Unknown'` until the success-path read
at line 101, and `basket` stays null until `_get_basket` ran.  The atomic
transaction around `handle_payment` is rolled back (nothing committed) when
`handle_payment` raises, and the outer handler turns the exception into an
error redirect; on success `create_order` runs and the handler redirects to
the receipt URL. -/
def post (env : Env) : PostResult :=
  match dget env.postBody "payment_reference" with
  | none =>
    { outcome := .redirectError, verifyCalls := 0
      auditRecords := [⟨env.postBody, "Unknown", none⟩]
      ordersCreated := 0, paymentCommitted := false }
  | some _ =>
    let verification_data := env.verifyResponse
    match dget verification_data "response_code" with
    | none =>
      { outcome := .uncaught (.keyError "response_code"), verifyCalls := 1
        auditRecords := [⟨env.postBody, "Unknown", none⟩]
        ordersCreated := 0, paymentCommitted := false }
    | some code =>
      if code ∉ PAYTABS_SUCCESS_CODES then
        { outcome := .redirectError, verifyCalls := 1
          auditRecords := [⟨env.postBody, "Unknown", none⟩]
          ordersCreated := 0, paymentCommitted := false }
      else
        match dget verification_data "reference_no" with
        | none =>
          { outcome := .uncaught (.keyError "reference_no"), verifyCalls := 1
            auditRecords := [⟨env.postBody, "Unknown", none⟩]
            ordersCreated := 0, paymentCommitted := false }
        | some reference_no =>
          let basket_id := env.basketIdOf reference_no
          let basket := _get_basket env basket_id
          match dget verification_data "transaction_id" with
          | none =>
            { outcome := .uncaught (.keyError "transaction_id"), verifyCalls := 1
              auditRecords := [⟨env.postBody, "Unknown", basket⟩]
              ordersCreated := 0, paymentCommitted := false }
          | some transaction_id =>
            match basket with
            | none =>
              { outcome := .redirectError, verifyCalls := 1
                auditRecords := [⟨env.postBody, transaction_id, none⟩]
                ordersCreated := 0, paymentCommitted := false }
            | some b =>
              match handle_payment env.hostPlacementRaises verification_data b with
              | .error _ =>
                { outcome := .redirectError, verifyCalls := 1
                  auditRecords := [⟨env.postBody, transaction_id, some b⟩]
                  ordersCreated := 0, paymentCommitted := false }
              | .ok _ =>
                { outcome := .redirectReceipt (env.receiptUrl b.order_number), verifyCalls := 1
                  auditRecords := [⟨env.postBody, transaction_id, some b⟩]
                  ordersCreated := 1, paymentCommitted := true }

deriving instance DecidableEq for Except

/-! ## Claim theorems -/

/-- Claim C4: `handle_processor_response` raises `PayTabsException` for every
response whose `response_code` is present and differs from the single
success code `'100'`, and performs no other validation: whenever the code
is `'100'` it returns a handled response, whatever the other fields. -/
theorem handle_processor_response_code_check (resp : Dict) (c : String)
    (hc : dget resp "response_code" = some c) :
    (c ≠ "100" → handle_processor_response resp =
      .error (.payTabsException "PayTabs raised an error when trying to process the payment")) ∧
    (c = "100" → ∃ r, handle_processor_response resp = .ok r) := by
  constructor
  · intro hne
    simp [handle_processor_response, hc, hne]
  · intro h100
    subst h100
    refine ⟨HandledProcessorResponse.mk (dget resp "transaction_id") (dget resp "amount")
      (dget resp "currency")
      (dgetD resp "card_first_six_digits" "XXXXXX" ++ "XXXXXX"
        ++ dgetD resp "card_last_four_digits" "XXXX")
      (dget resp "card_brand"), ?_⟩
    simp [handle_processor_response, hc]

/-- Claim C4 witness: the concrete response code `'481'` is rejected with a
`PayTabsException`. -/
theorem handle_processor_response_code_check_witness :
    dget [("response_code", "481")] "response_code" = some "481" ∧
    ((("481" : String) ≠ "100" →
      handle_processor_response [("response_code", "481")] =
        .error (.payTabsException "PayTabs raised an error when trying to process the payment")) ∧
     (("481" : String) = "100" →
      ∃ r, handle_processor_response [("response_code", "481")] = .ok r)) :=
  ⟨by decide, handle_processor_response_code_check [("response_code", "481")] "481" (by decide)⟩

/-- Claim C3 counterexample: on a success response with both card digit fields
absent, the masked card number defaults to the 16-character string
`'XXXXXX' ++ 'XXXXXX' ++ 'XXXX'`, not a 12-character all-X string as the
claim states. -/
theorem card_number_default_counterexample :
    (handle_processor_response [("response_code", "100")]).map
        (fun r => r.card_number) = .ok "XXXXXXXXXXXXXXXX" ∧
    ("XXXXXXXXXXXXXXXX" : String).length = 16 ∧
    ("XXXXXXXXXXXXXXXX" : String) ≠ "XXXXXXXXXXXX" :=
  ⟨by decide, by decide, by decide⟩

/-- Claim C3 (amended): for a response with `response_code` `'100'`, the returned
`card_number` is `<first six>XXXXXX<last four>` when both card digit fields
are present, and the 16-character default `'XXXXXXXXXXXXXXXX'` (from
defaults `'XXXXXX'` and `'XXXX'` around the literal `'XXXXXX'`) when both
are absent. -/
theorem handle_processor_response_card_number (resp : Dict)
    (h100 : dget resp "response_code" = some "100") :
    (∀ f6 l4, dget resp "card_first_six_digits" = some f6 →
        dget resp "card_last_four_digits" = some l4 →
        (handle_processor_response resp).map (fun r => r.card_number) =
          .ok (f6 ++ "XXXXXX" ++ l4)) ∧
    (dget resp "card_first_six_digits" = none →
      dget resp "card_last_four_digits" = none →
      (handle_processor_response resp).map (fun r => r.card_number) =
        .ok "XXXXXXXXXXXXXXXX") := by
  constructor
  · intro f6 l4 h6 h4
    simp [handle_processor_response, h100, dgetD, h6, h4, Except.map]
  · intro h6 h4
    simp [handle_processor_response, h100, dgetD, h6, h4, Except.map]

/-- Claim C3 witness: with digits `'411111'` and `'1111'` present the mask is
`'411111XXXXXX1111'`; the default case is exercised by the amended claim
at the same hypotheses shape. -/
theorem handle_processor_response_card_number_witness :
    dget [("response_code", "100"), ("card_first_six_digits", "411111"),
        ("card_last_four_digits", "1111")] "response_code" = some "100" ∧
    ((∀ f6 l4,
        dget [("response_code", "100"), ("card_first_six_digits", "411111"),
          ("card_last_four_digits", "1111")] "card_first_six_digits" = some f6 →
        dget [("response_code", "100"), ("card_first_six_digits", "411111"),
          ("card_last_four_digits", "1111")] "card_last_four_digits" = some l4 →
        (handle_processor_response [("response_code", "100"),
          ("card_first_six_digits", "411111"), ("card_last_four_digits", "1111")]).map
            (fun r => r.card_number) = .ok (f6 ++ "XXXXXX" ++ l4)) ∧
     (dget [("response_code", "100"), ("card_first_six_digits", "411111"),
        ("card_last_four_digits", "1111")] "card_first_six_digits" = none →
      dget [("response_code", "100"), ("card_first_six_digits", "411111"),
        ("card_last_four_digits", "1111")] "card_last_four_digits" = none →
      (handle_processor_response [("response_code", "100"),
        ("card_first_six_digits", "411111"), ("card_last_four_digits", "1111")]).map
          (fun r => r.card_number) = .ok "XXXXXXXXXXXXXXXX")) :=
  ⟨by decide, handle_processor_response_card_number _ (by decide)⟩

/-- Claim C5: with no country (or an empty, falsy one) on the buyer profile,
`get_transaction_parameters` raises the configuration `PayTabsException`
and the list of outbound HTTP calls is empty: it fails before any gateway
call. -/
theorem get_transaction_parameters_requires_country (env : InitEnv) (basket : Basket)
    (hc : basket.owner.account_details.country = none ∨
          basket.owner.account_details.country = some "") :
    get_transaction_parameters env basket =
      (.error (.payTabsException "Country must be set in user account settings"), []) := by
  rcases hc with h | h <;>
    simp [get_transaction_parameters, _get_user_profile_data, h]

/-- Buyer with no country on the account, used to exercise the
configuration-error path. -/
def userNoCountry : User :=
  { email := "buyer@example.com"
    account_details := { country := none, extended_profile := [] } }

/-- Basket owned by `userNoCountry`. -/
def basketNoCountry : Basket :=
  { id := 7, order_number := "EDX-100007", owner := userNoCountry
    lines := [], total_incl_tax := 0, currency := "USD" }

/-- Initiation environment for the missing-country witness. -/
def initEnvNoCountry : InitEnv :=
  { scheme := "https", host := "shop.example.com", merchant_email := "m@example.com"
    secret_key := "sk", return_base_url := "https://shop.example.com"
    default_phone_number_country_code := "+966", client_ip := "203.0.113.7"
    is_routable := true, langCookie := none, languageCode := "en"
    alpha3 := fun c => if c = "SA" then some "SAU" else none
    createPayPageResponse := [("response_code", "4012"),
      ("payment_url", "https://paytabs.example/pay"), ("result", "created")] }

/-- Claim C5 witness: the concrete no-country basket fails with the configuration
error and makes zero HTTP calls. -/
theorem get_transaction_parameters_requires_country_witness :
    (basketNoCountry.owner.account_details.country = none ∨
     basketNoCountry.owner.account_details.country = some "") ∧
    get_transaction_parameters initEnvNoCountry basketNoCountry =
      (.error (.payTabsException "Country must be set in user account settings"), []) :=
  ⟨Or.inl rfl,
    get_transaction_parameters_requires_country initEnvNoCountry basketNoCountry (Or.inl rfl)⟩

/-- Claim C6: with a valid buyer country and a well-formed gateway reply,
`get_transaction_parameters` returns the payment page URL exactly when the
reply's `response_code` is `'4012'`; any other code raises a
`PayTabsException` whose message carries that code and the reply's
`result` message; in both cases exactly one create-pay-page HTTP call was
made. -/
theorem get_transaction_parameters_gateway_code (env : InitEnv) (basket : Basket)
    (cc a3 c res : String)
    (hcountry : basket.owner.account_details.country = some cc) (hne : cc ≠ "")
    (ha : env.alpha3 cc = some a3)
    (hc : dget env.createPayPageResponse "response_code" = some c)
    (hres : dget env.createPayPageResponse "result" = some res) :
    ((get_transaction_parameters env basket).1 =
        .ok { payment_page_url := dget env.createPayPageResponse "payment_url" } ↔
      c = "4012") ∧
    (c ≠ "4012" → (get_transaction_parameters env basket).1 =
      .error (.payTabsException
        ("PayTabs raised an error when trying to process the payment (code: " ++ c
          ++ ", message: " ++ res ++ ")"))) ∧
    (get_transaction_parameters env basket).2.length = 1 := by
  by_cases h4 : c = "4012" <;>
    simp [get_transaction_parameters, _get_user_profile_data, hcountry, hne, ha, hc, hres, h4]

/-- Buyer profile with country `'SA'`, used for the valid-country
witnesses. -/
def userSaudi : User :=
  { email := "buyer@example.com"
    account_details :=
      { country := some "SA"
        extended_profile :=
          [⟨"first_name", some "Aya"⟩, ⟨"last_name", some "Hasan"⟩,
           ⟨"mailing_address", some "1 Main St"⟩, ⟨"city", some "Riyadh"⟩,
           ⟨"state", some "Riyadh"⟩] } }

/-- Basket owned by `userSaudi`. -/
def basketSaudi : Basket :=
  { id := 12, order_number := "EDX-100012", owner := userSaudi
    lines := [], total_incl_tax := 49, currency := "USD" }

/-- Initiation environment whose gateway reply carries the non-success code
`'481'`. -/
def initEnvRejected : InitEnv :=
  { scheme := "https", host := "shop.example.com", merchant_email := "m@example.com"
    secret_key := "sk", return_base_url := "https://shop.example.com"
    default_phone_number_country_code := "+966", client_ip := "203.0.113.7"
    is_routable := true, langCookie := none, languageCode := "en"
    alpha3 := fun c => if c = "SA" then some "SAU" else none
    createPayPageResponse := [("response_code", "481"), ("result", "rejected")] }

/-- Claim C6 witness: a valid-country basket against a gateway reply with code
`'481'` raises the gateway error carrying the code and message, after
exactly one HTTP call. -/
theorem get_transaction_parameters_gateway_code_witness :
    basketSaudi.owner.account_details.country = some "SA" ∧
    initEnvRejected.alpha3 "SA" = some "SAU" ∧
    dget initEnvRejected.createPayPageResponse "response_code" = some "481" ∧
    dget initEnvRejected.createPayPageResponse "result" = some "rejected" ∧
    (((get_transaction_parameters initEnvRejected basketSaudi).1 =
        .ok { payment_page_url := dget initEnvRejected.createPayPageResponse "payment_url" } ↔
      ("481" : String) = "4012") ∧
     (("481" : String) ≠ "4012" →
      (get_transaction_parameters initEnvRejected basketSaudi).1 =
        .error (.payTabsException
          ("PayTabs raised an error when trying to process the payment (code: " ++ "481"
            ++ ", message: " ++ "rejected" ++ ")"))) ∧
     (get_transaction_parameters initEnvRejected basketSaudi).2.length = 1) :=
  ⟨rfl, by decide, by decide, by decide,
    get_transaction_parameters_gateway_code initEnvRejected basketSaudi "SA" "SAU" "481"
      "rejected" rfl (by decide) (by decide) (by decide) (by decide)⟩

/-- Notification environment whose POST body lacks `payment_reference`. -/
def envMissingRef : Env :=
  { postBody := [("order_id", "42")]
    verifyResponse := []
    basketIdOf := fun _ => none
    baskets := fun _ => none
    hostPlacementRaises := false
    receiptUrl := fun _ => "" }

/-- Claim C2 counterexample: on a POST body without `payment_reference` the
handler redirects to the error page and makes zero verify calls, but the
`finally` block still runs `record_processor_response`, so one audit
record is written — not zero as the claim states. -/
theorem post_missing_reference_counterexample :
    dget envMissingRef.postBody "payment_reference" = none ∧
    (post envMissingRef).outcome = .redirectError ∧
    (post envMissingRef).verifyCalls = 0 ∧
    (post envMissingRef).auditRecords.length = 1 :=
  ⟨by decide, by decide, by decide, by decide⟩

/-- Claim C2 (amended): on a POST body without `payment_reference` the handler
redirects to the error page, makes zero verify calls, and — because the
early `return` still runs the `finally` block — writes exactly one audit
record, holding the raw POST body, the sentinel transaction id `'Unknown'`
and a null basket. -/
theorem post_missing_reference_audit (env : Env)
    (h : dget env.postBody "payment_reference" = none) :
    (post env).outcome = .redirectError ∧
    (post env).verifyCalls = 0 ∧
    (post env).auditRecords = [⟨env.postBody, "Unknown", none⟩] := by
  simp [post, h]

/-- Claim C2 witness: the amended claim at the concrete body `[(order_id, 42)]`. -/
theorem post_missing_reference_audit_witness :
    dget envMissingRef.postBody "payment_reference" = none ∧
    ((post envMissingRef).outcome = .redirectError ∧
     (post envMissingRef).verifyCalls = 0 ∧
     (post envMissingRef).auditRecords = [⟨envMissingRef.postBody, "Unknown", none⟩]) :=
  ⟨by decide, post_missing_reference_audit envMissingRef (by decide)⟩

/-- Claim C7: when the verify call yields a `response_code` outside
`PAYTABS_SUCCESS_CODES`, the handler redirects to the error page after
exactly one verify call; basket resolution is skipped, so the single audit
record written by the `finally` block has a null basket (in particular at
most one audit record is written). -/
theorem post_verification_rejected (env : Env) (p c : String)
    (hp : dget env.postBody "payment_reference" = some p)
    (hc : dget env.verifyResponse "response_code" = some c)
    (hmem : c ∉ PAYTABS_SUCCESS_CODES) :
    (post env).outcome = .redirectError ∧
    (post env).verifyCalls = 1 ∧
    (post env).auditRecords = [⟨env.postBody, "Unknown", none⟩] ∧
    (post env).auditRecords.length ≤ 1 := by
  simp [post, hp, hc, hmem]

/-- Notification environment whose verify reply carries the rejected code
`'481'`. -/
def envVerifyRejected : Env :=
  { postBody := [("payment_reference", "PR-1")]
    verifyResponse := [("response_code", "481")]
    basketIdOf := fun _ => none
    baskets := fun _ => none
    hostPlacementRaises := false
    receiptUrl := fun _ => "" }

/-- Claim C7 witness: the concrete verify reply `response_code = '481'`. -/
theorem post_verification_rejected_witness :
    dget envVerifyRejected.postBody "payment_reference" = some "PR-1" ∧
    dget envVerifyRejected.verifyResponse "response_code" = some "481" ∧
    ("481" : String) ∉ PAYTABS_SUCCESS_CODES ∧
    ((post envVerifyRejected).outcome = .redirectError ∧
     (post envVerifyRejected).verifyCalls = 1 ∧
     (post envVerifyRejected).auditRecords = [⟨envVerifyRejected.postBody, "Unknown", none⟩] ∧
     (post envVerifyRejected).auditRecords.length ≤ 1) :=
  ⟨by decide, by decide, by decide,
    post_verification_rejected envVerifyRejected "PR-1" "481" (by decide) (by decide) (by decide)⟩

/-- Claim C8: when verification succeeds but the derived basket id is non-numeric
or matches no existing basket, the handler redirects to the error page and
the `finally` block writes exactly one audit record, with a null basket
and the verified transaction id. -/
theorem post_basket_not_found (env : Env) (p c rn s t : String)
    (hp : dget env.postBody "payment_reference" = some p)
    (hc : dget env.verifyResponse "response_code" = some c)
    (hmem : c ∈ PAYTABS_SUCCESS_CODES)
    (hrn : dget env.verifyResponse "reference_no" = some rn)
    (ht : dget env.verifyResponse "transaction_id" = some t)
    (hbid : env.basketIdOf rn = some s)
    (hbad : pyInt? s = none ∨ ∃ n, pyInt? s = some n ∧ env.baskets n = none) :
    (post env).outcome = .redirectError ∧
    (post env).verifyCalls = 1 ∧
    (post env).auditRecords = [⟨env.postBody, t, none⟩] := by
  have hnone : _get_basket env (env.basketIdOf rn) = none := by
    rw [hbid]
    by_cases hs : s = ""
    · simp [_get_basket, hs]
    · rcases hbad with h | ⟨n, hn, hb⟩
      · simp [_get_basket, hs, h]
      · simp [_get_basket, hs, hn, hb]
  simp [post, hp, hc, hmem, hrn, ht, hnone]

/-- Notification environment whose verified reference resolves to the
non-numeric basket id `'abc'`. -/
def envBasketMissing : Env :=
  { postBody := [("payment_reference", "PR-2")]
    verifyResponse := [("response_code", "100"), ("reference_no", "EDX-abc"),
      ("transaction_id", "T-2"), ("amount", "49.00"), ("currency", "USD")]
    basketIdOf := fun _ => some "abc"
    baskets := fun _ => none
    hostPlacementRaises := false
    receiptUrl := fun _ => "" }

/-- Claim C8 witness: a verified notification whose reference yields the
non-numeric basket id `'abc'`. -/
theorem post_basket_not_found_witness :
    dget envBasketMissing.postBody "payment_reference" = some "PR-2" ∧
    dget envBasketMissing.verifyResponse "response_code" = some "100" ∧
    ("100" : String) ∈ PAYTABS_SUCCESS_CODES ∧
    dget envBasketMissing.verifyResponse "reference_no" = some "EDX-abc" ∧
    dget envBasketMissing.verifyResponse "transaction_id" = some "T-2" ∧
    envBasketMissing.basketIdOf "EDX-abc" = some "abc" ∧
    pyInt? "abc" = none ∧
    ((post envBasketMissing).outcome = .redirectError ∧
     (post envBasketMissing).verifyCalls = 1 ∧
     (post envBasketMissing).auditRecords = [⟨envBasketMissing.postBody, "T-2", none⟩]) :=
  ⟨by decide, by decide, by decide, by decide, by decide, by decide, by decide,
    post_basket_not_found envBasketMissing "PR-2" "100" "EDX-abc" "abc" "T-2"
      (by decide) (by decide) (by decide) (by decide) (by decide) (by decide)
      (Or.inl (by decide))⟩

/-- Claim C9: when the verified notification resolves to a basket but
`handle_payment` raises, the atomic transaction commits nothing, the
handler redirects to the error page, no order is created, and the audit
record written before the transaction is preserved — a final state with an
audit record and no order. -/
theorem post_placement_failure_rollback (env : Env) (p c rn t : String) (b : Basket)
    (e : PyError)
    (hp : dget env.postBody "payment_reference" = some p)
    (hc : dget env.verifyResponse "response_code" = some c)
    (hmem : c ∈ PAYTABS_SUCCESS_CODES)
    (hrn : dget env.verifyResponse "reference_no" = some rn)
    (ht : dget env.verifyResponse "transaction_id" = some t)
    (hb : _get_basket env (env.basketIdOf rn) = some b)
    (hfail : handle_payment env.hostPlacementRaises env.verifyResponse b = .error e) :
    (post env).outcome = .redirectError ∧
    (post env).paymentCommitted = false ∧
    (post env).ordersCreated = 0 ∧
    (post env).auditRecords = [⟨env.postBody, t, some b⟩] := by
  simp [post, hp, hc, hmem, hrn, ht, hb, hfail]

/-- A basket known to the host's basket table, used for the success-path
and placement-failure witnesses. -/
def basketKnown : Basket :=
  { id := 42, order_number := "EDX-100042", owner := userSaudi
    lines := [], total_incl_tax := 49, currency := "USD" }

/-- Notification environment where verification and basket resolution
succeed but the host-side placement steps raise. -/
def envPlacementFails : Env :=
  { postBody := [("payment_reference", "PR-3")]
    verifyResponse := [("response_code", "100"), ("reference_no", "EDX-100042"),
      ("transaction_id", "T-3"), ("amount", "49.00"), ("currency", "USD")]
    basketIdOf := fun _ => some "42"
    baskets := fun n => if n = 42 then some basketKnown else none
    hostPlacementRaises := true
    receiptUrl := fun n => "https://shop.example.com/receipt/" ++ n }

/-- Claim C9 witness: host placement raises on the concrete resolved basket; the
audit record survives and no order is created. -/
theorem post_placement_failure_rollback_witness :
    dget envPlacementFails.postBody "payment_reference" = some "PR-3" ∧
    dget envPlacementFails.verifyResponse "response_code" = some "100" ∧
    ("100" : String) ∈ PAYTABS_SUCCESS_CODES ∧
    dget envPlacementFails.verifyResponse "reference_no" = some "EDX-100042" ∧
    dget envPlacementFails.verifyResponse "transaction_id" = some "T-3" ∧
    _get_basket envPlacementFails (envPlacementFails.basketIdOf "EDX-100042") =
      some basketKnown ∧
    handle_payment envPlacementFails.hostPlacementRaises envPlacementFails.verifyResponse
      basketKnown = .error .hostError ∧
    ((post envPlacementFails).outcome = .redirectError ∧
     (post envPlacementFails).paymentCommitted = false ∧
     (post envPlacementFails).ordersCreated = 0 ∧
     (post envPlacementFails).auditRecords =
       [⟨envPlacementFails.postBody, "T-3", some basketKnown⟩]) :=
  ⟨by decide, by decide, by decide, by decide, by decide, by decide, by decide,
    post_placement_failure_rollback envPlacementFails "PR-3" "100" "EDX-100042" "T-3"
      basketKnown .hostError (by decide) (by decide) (by decide) (by decide) (by decide)
      (by decide) (by decide)⟩

/-- Claim C10: a verified `response_code` of `'111'` passes the handler's check
(it is in `PAYTABS_SUCCESS_CODES`) and the basket is resolved, yet
`handle_processor_response` — invoked during order placement — accepts
only `'100'` and raises, so the handler redirects to the error page and no
order is created. -/
theorem post_code_111_no_order (env : Env) (p rn t : String) (b : Basket)
    (hp : dget env.postBody "payment_reference" = some p)
    (hc : dget env.verifyResponse "response_code" = some "111")
    (hrn : dget env.verifyResponse "reference_no" = some rn)
    (ht : dget env.verifyResponse "transaction_id" = some t)
    (hb : _get_basket env (env.basketIdOf rn) = some b) :
    ("111" : String) ∈ PAYTABS_SUCCESS_CODES ∧
    handle_processor_response env.verifyResponse =
      .error (.payTabsException "PayTabs raised an error when trying to process the payment") ∧
    (post env).outcome = .redirectError ∧
    (post env).ordersCreated = 0 := by
  have hmem : ("111" : String) ∈ PAYTABS_SUCCESS_CODES := by decide
  have hproc : handle_processor_response env.verifyResponse =
      .error (.payTabsException "PayTabs raised an error when trying to process the payment") := by
    simp [handle_processor_response, hc]
  have hfail : handle_payment env.hostPlacementRaises env.verifyResponse b =
      .error (.payTabsException "PayTabs raised an error when trying to process the payment") := by
    simp [handle_payment, hproc]
  refine ⟨hmem, hproc, ?_, ?_⟩ <;> simp [post, hp, hc, hmem, hrn, ht, hb, hfail]

/-- Notification environment with the verified response code `'111'` and a
resolvable basket. -/
def envCode111 : Env :=
  { postBody := [("payment_reference", "PR-4")]
    verifyResponse := [("response_code", "111"), ("reference_no", "EDX-100042"),
      ("transaction_id", "T-4"), ("amount", "49.00"), ("currency", "USD")]
    basketIdOf := fun _ => some "42"
    baskets := fun n => if n = 42 then some basketKnown else none
    hostPlacementRaises := false
    receiptUrl := fun n => "https://shop.example.com/receipt/" ++ n }

/-- Claim C10 witness: a concrete `'111'` notification with a resolvable basket
ends in an error redirect with no order. -/
theorem post_code_111_no_order_witness :
    dget envCode111.postBody "payment_reference" = some "PR-4" ∧
    dget envCode111.verifyResponse "response_code" = some "111" ∧
    dget envCode111.verifyResponse "reference_no" = some "EDX-100042" ∧
    dget envCode111.verifyResponse "transaction_id" = some "T-4" ∧
    _get_basket envCode111 (envCode111.basketIdOf "EDX-100042") = some basketKnown ∧
    (("111" : String) ∈ PAYTABS_SUCCESS_CODES ∧
     handle_processor_response envCode111.verifyResponse =
       .error (.payTabsException "PayTabs raised an error when trying to process the payment") ∧
     (post envCode111).outcome = .redirectError ∧
     (post envCode111).ordersCreated = 0) :=
  ⟨by decide, by decide, by decide, by decide, by decide,
    post_code_111_no_order envCode111 "PR-4" "EDX-100042" "T-4" basketKnown
      (by decide) (by decide) (by decide) (by decide) (by decide)⟩

/-- Claim C1: for every notification whose verify reply carries the expected
keys, an order is created only if the verified response code is in
`PAYTABS_SUCCESS_CODES`, the reference number resolves to an existing
basket, and `handle_payment` (run inside the atomic transaction) does not
raise; on every other path the handler redirects to the error page with no
order created. -/
theorem post_order_creation_invariant (env : Env)
    (hrc : ∃ c, dget env.verifyResponse "response_code" = some c)
    (hrn : ∃ rn, dget env.verifyResponse "reference_no" = some rn)
    (hti : ∃ t, dget env.verifyResponse "transaction_id" = some t) :
    ((post env).ordersCreated ≠ 0 →
      (∃ c, dget env.verifyResponse "response_code" = some c ∧ c ∈ PAYTABS_SUCCESS_CODES) ∧
      (∃ rn b, dget env.verifyResponse "reference_no" = some rn ∧
        _get_basket env (env.basketIdOf rn) = some b ∧
        handle_payment env.hostPlacementRaises env.verifyResponse b = .ok ())) ∧
    ((post env).ordersCreated = 0 → (post env).outcome = .redirectError) := by
  obtain ⟨c, hc⟩ := hrc
  obtain ⟨rn, hrn⟩ := hrn
  obtain ⟨t, ht⟩ := hti
  cases hp : dget env.postBody "payment_reference" with
  | none => simp [post, hp]
  | some p =>
    by_cases hmem : c ∈ PAYTABS_SUCCESS_CODES
    · cases hb : _get_basket env (env.basketIdOf rn) with
      | none => simp [post, hp, hc, hmem, hrn, ht, hb]
      | some b =>
        cases hhp : handle_payment env.hostPlacementRaises env.verifyResponse b with
        | error e => simp [post, hp, hc, hmem, hrn, ht, hb, hhp]
        | ok u =>
          cases u
          have h1 : (post env).ordersCreated = 1 := by
            simp [post, hp, hc, hmem, hrn, ht, hb, hhp]
          refine ⟨fun _ => ⟨⟨c, hc, hmem⟩, ⟨rn, b, hrn, hb, hhp⟩⟩, fun h0 => ?_⟩
          rw [h1] at h0
          exact absurd h0 one_ne_zero
    · simp [post, hp, hc, hmem]

/-- Notification environment for the fully successful path: verified code
`'100'`, resolvable basket, host placement succeeds. -/
def envSuccess : Env :=
  { postBody := [("payment_reference", "PR-5")]
    verifyResponse := [("response_code", "100"), ("reference_no", "EDX-100042"),
      ("transaction_id", "T-5"), ("amount", "49.00"), ("currency", "USD")]
    basketIdOf := fun _ => some "42"
    baskets := fun n => if n = 42 then some basketKnown else none
    hostPlacementRaises := false
    receiptUrl := fun n => "https://shop.example.com/receipt/" ++ n }

/-- C1 witness: the invariant applied to the concrete successful
notification environment. -/
theorem post_order_creation_invariant_witness :
    (∃ c, dget envSuccess.verifyResponse "response_code" = some c) ∧
    (∃ rn, dget envSuccess.verifyResponse "reference_no" = some rn) ∧
    (∃ t, dget envSuccess.verifyResponse "transaction_id" = some t) ∧
    (((post envSuccess).ordersCreated ≠ 0 →
       (∃ c, dget envSuccess.verifyResponse "response_code" = some c ∧
         c ∈ PAYTABS_SUCCESS_CODES) ∧
       (∃ rn b, dget envSuccess.verifyResponse "reference_no" = some rn ∧
         _get_basket envSuccess (envSuccess.basketIdOf rn) = some b ∧
         handle_payment envSuccess.hostPlacementRaises envSuccess.verifyResponse b =
           .ok ())) ∧
     ((post envSuccess).ordersCreated = 0 → (post envSuccess).outcome = .redirectError)) :=
  ⟨⟨"100", by decide⟩, ⟨"EDX-100042", by decide⟩, ⟨"T-5", by decide⟩,
    post_order_creation_invariant envSuccess ⟨"100", by decide⟩ ⟨"EDX-100042", by decide⟩
      ⟨"T-5", by decide⟩⟩

end PayTabs
